import Mathlib

/-!
Shallow embedding of the `QueryChatbot` Azure-function handler from
ParmbeerJohal/portfolio-chatbot.

The repository contains two variants of the same handler:
  * `src/functions/QueryChatbot.js` — issues the outbound call with axios
    (15 s timeout, distinguishes timeout / HTTP error / network error);
  * an unnamed variant — issues the outbound call with node-fetch
    (no client timeout configured, only distinguishes ok / not-ok, every
    client rejection falls through to the top-level catch).

Lines 1–90 of the two files are byte-identical (parse, credential
selection, configuration checks, request construction), so that common
part is embedded once as `handlerFront` and each variant adds its own
outbound-call outcome mapping (`axiosCallResult` / `fetchCallResult`).

External nondeterminism is made explicit as inputs:
  * `TokenOutcome` — how the `Promise.race` between the managed-identity
    `getToken` call and the 10 000 ms timer settles (hosted mode only);
  * `FetchOutcome` — how the single outbound HTTP call settles
    (a server response with a status and JSON payload, a client timeout
    after the configured bound, or a network-level failure).
-/

mutual
/-- JSON values, mutually with JSON arrays and JSON object field lists.
JS numbers are modelled as integers, which covers every numeric literal
the claims mention (`top: 1`, a falsy `0` question). -/
inductive Json where
  | null
  | bool (b : Bool)
  | num (n : Int)
  | str (s : String)
  | arr (elems : JsonList)
  | obj (fields : JsonFields)
deriving DecidableEq, Repr

inductive JsonList where
  | nil
  | cons (hd : Json) (tl : JsonList)
deriving DecidableEq, Repr

inductive JsonFields where
  | nil
  | cons (key : String) (val : Json) (tl : JsonFields)
deriving DecidableEq, Repr
end

/-- JavaScript truthiness of a JSON value: `null`, `false`, `0` and `""`
are falsy; every other JSON value (any array or object included) is
truthy. -/
def Json.truthy : Json → Bool
  | .null => false
  | .bool b => b
  | .num n => n != 0
  | .str s => s != ""
  | .arr _ => true
  | .obj _ => true

/-- Lookup of a key in a JSON object's field list (first match). -/
def JsonFields.lookup : JsonFields → String → Option Json
  | JsonFields.nil, _ => none
  | JsonFields.cons k v tl, key => if k == key then some v else tl.lookup key

/-- Value of field `key` when the JSON value is an object holding it. -/
def Json.field (j : Json) (key : String) : Option Json :=
  match j with
  | Json.obj fs => fs.lookup key
  | _ => none

/-- Default question substituted when the inbound `question` is falsy
(line 16 of both variants). -/
def defaultQuestion : String := "Tell me about your portfolio"

/-- JSON body `{"error": e}`. -/
def errorBody (e : String) : Json :=
  Json.obj (JsonFields.cons "error" (Json.str e) JsonFields.nil)

/-- JSON body `{"error": e, "details": d}`. -/
def errorDetailsBody (e : String) (d : Json) : Json :=
  Json.obj (JsonFields.cons "error" (Json.str e)
    (JsonFields.cons "details" d JsonFields.nil))

/-- HTTP response produced by the handler. `body` is the JSON value the
source passes to `JSON.stringify`; `contentTypeJson` records whether the
source attaches the `Content-Type: application/json` response header
(it does so only on the 200 success path). -/
structure HttpResponse where
  status : Nat
  body : Json
  contentTypeJson : Bool
deriving DecidableEq, Repr

/-- Response `{ status: 400, body: {"error": "Invalid request format"} }`
returned when parsing the inbound body throws (line 20). -/
def invalidFormatResponse : HttpResponse :=
  { status := 400, body := errorBody "Invalid request format", contentTypeJson := false }

/-- Top-level catch (lines 144–155 axios variant / 118–129 fetch
variant): any uncaught exception becomes a 500 whose body carries the
exception message in `details`. -/
def errorResponse500 (msg : String) : HttpResponse :=
  { status := 500
    body := errorDetailsBody "An error occurred processing your request" (Json.str msg)
    contentTypeJson := false }

/-- Process environment: each variable is either unset (`none`) or set to
a string. -/
structure Env where
  websiteInstanceId : Option String
  languageServiceKey : Option String
  managedIdentityClientId : Option String
  languageServiceEndpoint : Option String
  qaKnowledgeBaseId : Option String
deriving DecidableEq, Repr

/-- JavaScript truthiness of an environment variable: unset (`undefined`)
and the empty string are both falsy. -/
def envTruthy : Option String → Bool
  | none => false
  | some s => s != ""

/-- Inbound request body as seen by `await request.json()` followed by
the `requestData.question` access (lines 15–16, inside the parse
try/catch):
  * `malformed` — `request.json()` itself throws (body is not valid JSON);
  * `jsonNull` — the body is the valid JSON document `null`; parsing
    succeeds but `requestData.question` throws a `TypeError`, which the
    same catch block handles;
  * `parsed q` — any other JSON document; `q` is the value of its
    `question` field, or `none` when the field is absent (then the access
    yields `undefined`, which is falsy). -/
inductive InboundBody where
  | malformed
  | jsonNull
  | parsed (question : Option Json)
deriving DecidableEq, Repr

/-- Outcome of `Promise.race([tokenPromise, timeoutPromise])`
(lines 46–52), relevant only in hosted mode:
  * `resolved t` — `getToken` resolves within 10 000 ms with token `t`;
  * `failed msg` — `getToken` rejects within 10 000 ms with message `msg`
    (also covers a throwing `DefaultAzureCredential` constructor);
  * `timedOut` — the credential call does not settle within 10 000 ms,
    so the timer's rejection `Error("Token acquisition timed out")` wins
    the race. -/
inductive TokenOutcome where
  | resolved (token : String)
  | failed (msg : String)
  | timedOut
deriving DecidableEq, Repr

/-- Outcome of the single outbound HTTP call, relevant only when the call
is issued:
  * `response status payload` — the service answered with HTTP `status`
    and JSON body `payload`;
  * `timeout msg` — the client gave up waiting (axios: after the
    configured 15 000 ms, error code `ECONNABORTED` with message `msg`);
  * `networkError msg` — no response was received at all and the client
    rejected with message `msg`. -/
inductive FetchOutcome where
  | response (status : Nat) (payload : Json)
  | timeout (msg : String)
  | networkError (msg : String)
deriving DecidableEq, Repr

/-- Outbound query body built at lines 73–76:
`{ question: questionText, top: 1 }`. -/
structure OutboundQuery where
  question : Json
  top : Nat
deriving DecidableEq, Repr

/-- Credential attached to the outbound call (lines 84–89): the
`Ocp-Apim-Subscription-Key` header in local mode, the
`Authorization: Bearer` header in hosted mode. -/
inductive AuthHeader where
  | subscriptionKey (key : String)
  | bearer (token : String)
deriving DecidableEq, Repr

/-- The outbound request as assembled by the handler: the knowledge-base
URL, the query body and the auth header (the constant
`Content-Type: application/json` request header is left implicit). -/
structure OutboundRequest where
  url : String
  query : OutboundQuery
  auth : AuthHeader
deriving DecidableEq, Repr

/-- Lines 15–16: `questionText = requestData.question || "Tell me about
your portfolio"` — the default replaces an absent (`undefined`) or falsy
`question` value. -/
def questionOrDefault : Option Json → Json
  | some v => if v.truthy then v else Json.str defaultQuestion
  | none => Json.str defaultQuestion

/-- Lines 13–21, the parse try/catch: a body on which parsing (or the
`question` access) throws yields the 400 response; otherwise the
question text is extracted with the default substitution. -/
def parseRequest : InboundBody → Except HttpResponse Json
  | InboundBody.malformed => Except.error invalidFormatResponse
  | InboundBody.jsonNull => Except.error invalidFormatResponse
  | InboundBody.parsed q => Except.ok (questionOrDefault q)

/-- Lines 30–59, credential acquisition. Local mode (lines 30–36): read
`LANGUAGE_SERVICE_KEY` and throw if it is falsy. Hosted mode (lines
37–59): race `getToken` against the 10 s timer; on any rejection the
catch block rethrows `Failed to authenticate: <message>`. -/
def acquireToken (isLocalDevelopment : Bool) (env : Env) (tok : TokenOutcome) :
    Except String String :=
  if isLocalDevelopment then
    match env.languageServiceKey with
    | some k =>
        if k != "" then Except.ok k
        else Except.error "LANGUAGE_SERVICE_KEY environment variable is required for local development"
    | none => Except.error "LANGUAGE_SERVICE_KEY environment variable is required for local development"
  else
    match tok with
    | TokenOutcome.resolved t => Except.ok t
    | TokenOutcome.failed msg => Except.error ("Failed to authenticate: " ++ msg)
    | TokenOutcome.timedOut => Except.error ("Failed to authenticate: " ++ "Token acquisition timed out")

/-- State reached by the common front part of the handler: either an
early return (with a flag recording whether the credential step was
reached) or the point just before the outbound call, carrying the
assembled request. -/
inductive FrontState where
  | earlyReturn (resp : HttpResponse) (authAttempted : Bool)
  | proceed (req : OutboundRequest)
deriving DecidableEq, Repr

/-- Lines 9–89, identical in both variants: parse the body, select the
credential strategy from `WEBSITE_INSTANCE_ID`, acquire the credential,
check `LANGUAGE_SERVICE_ENDPOINT` and `QA_KNOWLEDGE_BASE_ID` (throwing
on falsy values; thrown errors land in the top-level catch as
`errorResponse500`), then build the outbound URL, query and auth
header. -/
def handlerFront (env : Env) (body : InboundBody) (tok : TokenOutcome) : FrontState :=
  match parseRequest body with
  | Except.error resp => FrontState.earlyReturn resp false
  | Except.ok questionText =>
    let isLocalDevelopment := !envTruthy env.websiteInstanceId
    match acquireToken isLocalDevelopment env tok with
    | Except.error msg => FrontState.earlyReturn (errorResponse500 msg) true
    | Except.ok accessToken =>
      if !envTruthy env.languageServiceEndpoint then
        FrontState.earlyReturn
          (errorResponse500 "LANGUAGE_SERVICE_ENDPOINT environment variable is not defined") true
      else if !envTruthy env.qaKnowledgeBaseId then
        FrontState.earlyReturn
          (errorResponse500 "QA_KNOWLEDGE_BASE_ID environment variable is not defined") true
      else
        let endpoint := env.languageServiceEndpoint.getD ""
        let projectName := env.qaKnowledgeBaseId.getD ""
        let qnaUrl := endpoint ++ "/language/:query-knowledgebases?projectName=" ++ projectName
          ++ "&deploymentName=production&api-version=2023-04-01"
        FrontState.proceed
          { url := qnaUrl
            query := { question := questionText, top := 1 }
            auth := if isLocalDevelopment then AuthHeader.subscriptionKey accessToken
                    else AuthHeader.bearer accessToken }

/-- Axios variant, lines 91–143: map the outcome of the axios call to a
response. A 2xx response (axios's default `validateStatus`) yields 200
with the downstream payload; `ECONNABORTED` yields 504; a non-2xx
response is relayed with `{"error": "Language service error: <status>",
"details": <payload or axios message>}` (`status || 500` and
`response.data || message` are JS falsy-fallbacks); anything else yields
the generic connectivity 500. -/
def axiosCallResult : FetchOutcome → HttpResponse
  | FetchOutcome.response status payload =>
      if 200 ≤ status ∧ status < 300 then
        { status := 200, body := payload, contentTypeJson := true }
      else
        let st := if status = 0 then 500 else status
        let errorMessage :=
          if payload.truthy then payload
          else Json.str ("Request failed with status code " ++ toString status)
        { status := st
          body := errorDetailsBody ("Language service error: " ++ toString st) errorMessage
          contentTypeJson := false }
  | FetchOutcome.timeout _ =>
      { status := 504
        body := errorBody "Request to Language service timed out"
        contentTypeJson := false }
  | FetchOutcome.networkError _ =>
      { status := 500
        body := errorBody "Failed to connect to Language service"
        contentTypeJson := false }

/-- Fetch variant, lines 91–117: `response.ok` (status 200–299) yields
200 with the downstream payload; a not-ok response is relayed with
`{"error": "Language service error: <status>"}` and no `details`; a
rejected fetch (client timeout or network failure) is not handled here —
it propagates to the top-level catch, modelled as `Except.error` with
the rejection message. -/
def fetchCallResult : FetchOutcome → Except String HttpResponse
  | FetchOutcome.response status payload =>
      if 200 ≤ status ∧ status ≤ 299 then
        Except.ok { status := 200, body := payload, contentTypeJson := true }
      else
        Except.ok { status := status
                    body := errorBody ("Language service error: " ++ toString status)
                    contentTypeJson := false }
  | FetchOutcome.timeout msg => Except.error msg
  | FetchOutcome.networkError msg => Except.error msg

/-- Result of one handler invocation: the HTTP response together with an
execution trace of the effects the claims talk about — whether the
credential step was reached and whether the outbound call was issued
(and if so, with which request). -/
structure HandlerResult where
  response : HttpResponse
  authAttempted : Bool
  outboundCalled : Bool
  outboundRequest : Option OutboundRequest
deriving DecidableEq, Repr

/-- The axios-based handler (`src/functions/QueryChatbot.js`, lines
8–157). -/
def handlerAxios (env : Env) (body : InboundBody) (tok : TokenOutcome)
    (fo : FetchOutcome) : HandlerResult :=
  match handlerFront env body tok with
  | FrontState.earlyReturn resp a =>
      { response := resp, authAttempted := a, outboundCalled := false, outboundRequest := none }
  | FrontState.proceed req =>
      { response := axiosCallResult fo
        authAttempted := true
        outboundCalled := true
        outboundRequest := some req }

/-- The node-fetch-based handler (unnamed variant, lines 8–131). -/
def handlerFetch (env : Env) (body : InboundBody) (tok : TokenOutcome)
    (fo : FetchOutcome) : HandlerResult :=
  match handlerFront env body tok with
  | FrontState.earlyReturn resp a =>
      { response := resp, authAttempted := a, outboundCalled := false, outboundRequest := none }
  | FrontState.proceed req =>
      match fetchCallResult fo with
      | Except.ok resp =>
          { response := resp, authAttempted := true, outboundCalled := true
            outboundRequest := some req }
      | Except.error msg =>
          { response := errorResponse500 msg, authAttempted := true, outboundCalled := true
            outboundRequest := some req }

/-- Character-list version of `String.startsWith`. -/
def charsStartWith : List Char → List Char → Bool
  | [], _ => true
  | _ :: _, [] => false
  | n :: ns, h :: hs => n == h && charsStartWith ns hs

/-- Whether the character list `needle` occurs contiguously inside
`haystack`. -/
def charsContain (needle : List Char) : List Char → Bool
  | [] => charsStartWith needle []
  | h :: hs => charsStartWith needle (h :: hs) || charsContain needle hs

/-- Substring test used to state that an error body "mentions" a
string. -/
def occursIn (needle msg : String) : Bool :=
  charsContain needle.data msg.data

/-- A fully configured local-mode environment (no `WEBSITE_INSTANCE_ID`,
key and endpoint configuration present), used for concrete instances. -/
def envLocalFull : Env :=
  { websiteInstanceId := none
    languageServiceKey := some "local-key"
    managedIdentityClientId := none
    languageServiceEndpoint := some "https://example.cognitiveservices.azure.com"
    qaKnowledgeBaseId := some "portfolio-kb" }

/-- A fully configured hosted-mode environment (`WEBSITE_INSTANCE_ID`
present), used for concrete instances. -/
def envHostedFull : Env :=
  { websiteInstanceId := some "instance-1"
    languageServiceKey := none
    managedIdentityClientId := some "client-1"
    languageServiceEndpoint := some "https://example.cognitiveservices.azure.com"
    qaKnowledgeBaseId := some "portfolio-kb" }

/-- A local-mode environment whose pre-shared key is unset. -/
def envLocalNoKey : Env :=
  { websiteInstanceId := none
    languageServiceKey := none
    managedIdentityClientId := none
    languageServiceEndpoint := some "https://example.cognitiveservices.azure.com"
    qaKnowledgeBaseId := some "portfolio-kb" }

/-- The knowledge-base URL assembled from `envLocalFull`. -/
def urlLocalFull : String :=
  "https://example.cognitiveservices.azure.com/language/:query-knowledgebases?projectName=portfolio-kb&deploymentName=production&api-version=2023-04-01"

/-- The outbound request `handlerFront` assembles under `envLocalFull`
when the inbound body provides the question `"Hi"`. -/
def reqLocalHi : OutboundRequest :=
  { url := urlLocalFull
    query := { question := Json.str "Hi", top := 1 }
    auth := AuthHeader.subscriptionKey "local-key" }

/-- The outbound request `handlerFront` assembles under `envLocalFull`
when the question defaults. -/
def reqLocalDefault : OutboundRequest :=
  { url := urlLocalFull
    query := { question := Json.str defaultQuestion, top := 1 }
    auth := AuthHeader.subscriptionKey "local-key" }

/-- The outbound request `handlerFront` assembles under `envLocalFull`
when the inbound body provides the truthy non-string question `7`. -/
def reqLocalNum7 : OutboundRequest :=
  { url := urlLocalFull
    query := { question := Json.num 7, top := 1 }
    auth := AuthHeader.subscriptionKey "local-key" }

/-- Inversion for the common front part: whenever it reaches the
outbound call on a body that parses, the assembled query is
`{ question: questionOrDefault q, top: 1 }`. -/
theorem front_proceed_query (env : Env) (q : Option Json) (tok : TokenOutcome)
    (req : OutboundRequest)
    (h : handlerFront env (InboundBody.parsed q) tok = FrontState.proceed req) :
    req.query = { question := questionOrDefault q, top := 1 } := by
  simp only [handlerFront, parseRequest] at h
  cases hA : acquireToken (!envTruthy env.websiteInstanceId) env tok with
  | error msg => rw [hA] at h; simp at h
  | ok accessToken =>
    rw [hA] at h
    by_cases h1 : envTruthy env.languageServiceEndpoint
    · by_cases h2 : envTruthy env.qaKnowledgeBaseId
      · simp [h1, h2] at h
        cases h
        rfl
      · simp [h1, h2] at h
    · simp [h1] at h

/-- The axios handler issues the outbound call exactly when the common
front part reaches `proceed`, and then with that request. -/
theorem handlerAxios_outboundRequest (env : Env) (body : InboundBody) (tok : TokenOutcome)
    (fo : FetchOutcome) (req : OutboundRequest)
    (h : (handlerAxios env body tok fo).outboundRequest = some req) :
    handlerFront env body tok = FrontState.proceed req := by
  unfold handlerAxios at h
  cases hf : handlerFront env body tok with
  | earlyReturn resp a => rw [hf] at h; simp at h
  | proceed r => rw [hf] at h; simp at h; rw [h]

/-- The fetch handler issues the outbound call exactly when the common
front part reaches `proceed`, and then with that request. -/
theorem handlerFetch_outboundRequest (env : Env) (body : InboundBody) (tok : TokenOutcome)
    (fo : FetchOutcome) (req : OutboundRequest)
    (h : (handlerFetch env body tok fo).outboundRequest = some req) :
    handlerFront env body tok = FrontState.proceed req := by
  unfold handlerFetch at h
  cases hf : handlerFront env body tok with
  | earlyReturn resp a => rw [hf] at h; simp at h
  | proceed r =>
    rw [hf] at h
    cases hr : fetchCallResult fo with
    | ok resp => rw [hr] at h; simp at h; rw [h]
    | error msg => rw [hr] at h; simp at h; rw [h]

/-- C4: an inbound body that fails to parse (the parse try/catch throws)
makes both handlers return 400 with body `{"error": "Invalid request
format"}` immediately: the credential step is never reached and the
outbound call is never issued. -/
theorem c4_unparsable_immediate_400 (env : Env) (tok : TokenOutcome) (fo : FetchOutcome) :
    invalidFormatResponse =
      { status := 400, body := errorBody "Invalid request format", contentTypeJson := false } ∧
    handlerAxios env InboundBody.malformed tok fo =
      { response := invalidFormatResponse, authAttempted := false
        outboundCalled := false, outboundRequest := none } ∧
    handlerFetch env InboundBody.malformed tok fo =
      { response := invalidFormatResponse, authAttempted := false
        outboundCalled := false, outboundRequest := none } :=
  ⟨rfl, rfl, rfl⟩

/-- C3: when the inbound body parses to an object whose `question` field
is a non-empty string `s`, any outbound query either handler builds has
`question` equal to `s` verbatim and `top` equal to `1`. -/
theorem c3_question_verbatim (env : Env) (tok : TokenOutcome) (fo : FetchOutcome)
    (s : String) (req : OutboundRequest) (hs : s ≠ "")
    (h : (handlerAxios env (InboundBody.parsed (some (Json.str s))) tok fo).outboundRequest = some req ∨
         (handlerFetch env (InboundBody.parsed (some (Json.str s))) tok fo).outboundRequest = some req) :
    req.query.question = Json.str s ∧ req.query.top = 1 := by
  have hf : handlerFront env (InboundBody.parsed (some (Json.str s))) tok = FrontState.proceed req := by
    cases h with
    | inl h => exact handlerAxios_outboundRequest _ _ _ _ _ h
    | inr h => exact handlerFetch_outboundRequest _ _ _ _ _ h
  have hq := front_proceed_query _ _ _ _ hf
  rw [hq]
  refine ⟨?_, rfl⟩
  simp [questionOrDefault, Json.truthy, bne_iff_ne, hs]

/-- Witness for `c3_question_verbatim` at the question `"Hi"` under the
fully configured local environment. -/
theorem c3_question_verbatim_witness :
    reqLocalHi.query.question = Json.str "Hi" ∧ reqLocalHi.query.top = 1 :=
  c3_question_verbatim envLocalFull (TokenOutcome.resolved "tok")
    (FetchOutcome.response 200 Json.null) "Hi" reqLocalHi (by decide) (Or.inl (by decide))

/-- C5: whenever the outbound call is issued and the service answers
with a status in [200, 300), both handlers return 200 with the
downstream JSON payload passed through unmodified (and the JSON
content-type header set). -/
theorem c5_success_passthrough (env : Env) (body : InboundBody) (tok : TokenOutcome)
    (s : Nat) (p : Json) (h2 : 200 ≤ s) (h3 : s < 300)
    (hc : (handlerAxios env body tok (FetchOutcome.response s p)).outboundCalled = true) :
    (handlerAxios env body tok (FetchOutcome.response s p)).response =
      { status := 200, body := p, contentTypeJson := true } ∧
    (handlerFetch env body tok (FetchOutcome.response s p)).response =
      { status := 200, body := p, contentTypeJson := true } := by
  cases hf : handlerFront env body tok with
  | earlyReturn resp a => simp [handlerAxios, hf] at hc
  | proceed req =>
    have hax : axiosCallResult (FetchOutcome.response s p) =
        { status := 200, body := p, contentTypeJson := true } := by
      simp only [axiosCallResult]
      rw [if_pos ⟨h2, h3⟩]
    have hfe : fetchCallResult (FetchOutcome.response s p) =
        Except.ok { status := 200, body := p, contentTypeJson := true } := by
      simp only [fetchCallResult]
      rw [if_pos ⟨h2, by omega⟩]
    exact ⟨by simp [handlerAxios, hf, hax], by simp [handlerFetch, hf, hfe]⟩

/-- Witness for `c5_success_passthrough`: a 200 downstream answer under
the fully configured local environment is passed through. -/
theorem c5_success_passthrough_witness :
    (handlerAxios envLocalFull (InboundBody.parsed none) (TokenOutcome.resolved "tok")
        (FetchOutcome.response 200 (Json.str "the answer"))).response =
      { status := 200, body := Json.str "the answer", contentTypeJson := true } ∧
    (handlerFetch envLocalFull (InboundBody.parsed none) (TokenOutcome.resolved "tok")
        (FetchOutcome.response 200 (Json.str "the answer"))).response =
      { status := 200, body := Json.str "the answer", contentTypeJson := true } :=
  c5_success_passthrough envLocalFull (InboundBody.parsed none) (TokenOutcome.resolved "tok")
    200 (Json.str "the answer") (by decide) (by decide) (by decide)

/-- C6: whenever the outbound call is issued and the service answers
with a non-success status `s` (outside [200, 300), and a real HTTP
status, hence nonzero), both handlers relay exactly `s` and put the
summary `Language service error: <s>` in the `error` field of the body;
for `s = 404` that summary mentions `"404"`. -/
theorem c6_error_status_relayed (env : Env) (body : InboundBody) (tok : TokenOutcome)
    (s : Nat) (p : Json) (hns : ¬(200 ≤ s ∧ s < 300)) (hs0 : s ≠ 0)
    (hc : (handlerAxios env body tok (FetchOutcome.response s p)).outboundCalled = true) :
    (handlerAxios env body tok (FetchOutcome.response s p)).response.status = s ∧
    Json.field (handlerAxios env body tok (FetchOutcome.response s p)).response.body "error" =
      some (Json.str ("Language service error: " ++ toString s)) ∧
    (handlerFetch env body tok (FetchOutcome.response s p)).response.status = s ∧
    Json.field (handlerFetch env body tok (FetchOutcome.response s p)).response.body "error" =
      some (Json.str ("Language service error: " ++ toString s)) ∧
    (s = 404 → occursIn "404" ("Language service error: " ++ toString s) = true) := by
  cases hf : handlerFront env body tok with
  | earlyReturn resp a => simp [handlerAxios, hf] at hc
  | proceed req =>
    have hns' : ¬(200 ≤ s ∧ s ≤ 299) := by omega
    have hfe : fetchCallResult (FetchOutcome.response s p) =
        Except.ok { status := s
                    body := errorBody ("Language service error: " ++ toString s)
                    contentTypeJson := false } := by
      simp only [fetchCallResult]
      rw [if_neg hns']
    refine ⟨?_, ?_, ?_, ?_, ?_⟩
    · simp [handlerAxios, hf, axiosCallResult]
      rw [if_neg hns]
      simp [hs0]
    · simp [handlerAxios, hf, axiosCallResult]
      rw [if_neg hns]
      simp [hs0, errorDetailsBody, Json.field, JsonFields.lookup]
    · simp [handlerFetch, hf, hfe]
    · simp [handlerFetch, hf, hfe, errorBody, Json.field, JsonFields.lookup]
    · intro h4
      subst h4
      decide

/-- Witness for `c6_error_status_relayed` at a downstream 404 under the
fully configured local environment. -/
theorem c6_error_status_relayed_witness :
    (handlerAxios envLocalFull (InboundBody.parsed none) (TokenOutcome.resolved "tok")
        (FetchOutcome.response 404 (Json.str "not found"))).response.status = 404 ∧
    Json.field (handlerAxios envLocalFull (InboundBody.parsed none) (TokenOutcome.resolved "tok")
        (FetchOutcome.response 404 (Json.str "not found"))).response.body "error" =
      some (Json.str ("Language service error: " ++ toString 404)) ∧
    (handlerFetch envLocalFull (InboundBody.parsed none) (TokenOutcome.resolved "tok")
        (FetchOutcome.response 404 (Json.str "not found"))).response.status = 404 ∧
    Json.field (handlerFetch envLocalFull (InboundBody.parsed none) (TokenOutcome.resolved "tok")
        (FetchOutcome.response 404 (Json.str "not found"))).response.body "error" =
      some (Json.str ("Language service error: " ++ toString 404)) ∧
    (404 = 404 → occursIn "404" ("Language service error: " ++ toString 404) = true) :=
  c6_error_status_relayed envLocalFull (InboundBody.parsed none) (TokenOutcome.resolved "tok")
    404 (Json.str "not found") (by decide) (by decide) (by decide)

/-- C1 (counterexample): under the same fully configured local
environment, the same inbound body and the same downstream outcome (a
404 answer with a truthy JSON body), the axios variant and the fetch
variant produce different results — the axios variant adds a `details`
field to the relayed error body, the fetch variant does not. -/
theorem c1_counterexample :
    handlerAxios envLocalFull (InboundBody.parsed none) (TokenOutcome.resolved "tok")
        (FetchOutcome.response 404 (Json.str "not found")) ≠
      handlerFetch envLocalFull (InboundBody.parsed none) (TokenOutcome.resolved "tok")
        (FetchOutcome.response 404 (Json.str "not found")) := by
  decide

/-- C1 (amended): the two variants agree — same status, same body, same
effect trace — on every invocation that either never issues the outbound
call (parse failures, credential failures, missing configuration) or
whose downstream call answers with a success status in [200, 300); they
diverge only in how a downstream error outcome is mapped. -/
theorem c1_variants_agree_outside_downstream_errors (env : Env) (body : InboundBody)
    (tok : TokenOutcome) (fo : FetchOutcome)
    (h : (handlerAxios env body tok fo).outboundCalled = false ∨
         ∃ s p, fo = FetchOutcome.response s p ∧ 200 ≤ s ∧ s < 300) :
    handlerAxios env body tok fo = handlerFetch env body tok fo := by
  cases hf : handlerFront env body tok with
  | earlyReturn resp a => simp [handlerAxios, handlerFetch, hf]
  | proceed req =>
    rcases h with h | ⟨s, p, rfl, h2, h3⟩
    · simp [handlerAxios, hf] at h
    · have hax : axiosCallResult (FetchOutcome.response s p) =
          { status := 200, body := p, contentTypeJson := true } := by
        simp only [axiosCallResult]
        rw [if_pos ⟨h2, h3⟩]
      have hfe : fetchCallResult (FetchOutcome.response s p) =
          Except.ok { status := 200, body := p, contentTypeJson := true } := by
        simp only [fetchCallResult]
        rw [if_pos ⟨h2, by omega⟩]
      simp [handlerAxios, handlerFetch, hf, hax, hfe]

/-- Witness for `c1_variants_agree_outside_downstream_errors` at a
successful 200 downstream outcome. -/
theorem c1_variants_agree_witness :
    handlerAxios envLocalFull (InboundBody.parsed none) (TokenOutcome.resolved "tok")
        (FetchOutcome.response 200 (Json.str "the answer")) =
      handlerFetch envLocalFull (InboundBody.parsed none) (TokenOutcome.resolved "tok")
        (FetchOutcome.response 200 (Json.str "the answer")) :=
  c1_variants_agree_outside_downstream_errors envLocalFull (InboundBody.parsed none)
    (TokenOutcome.resolved "tok") (FetchOutcome.response 200 (Json.str "the answer"))
    (Or.inr ⟨200, Json.str "the answer", rfl, by decide, by decide⟩)

/-- C2 (counterexample): in the fetch variant the downstream timeout
does not produce a 504 — the client rejection falls through to the
top-level catch, which answers 500 with the generic message, even though
the outbound call was issued. -/
theorem c2_counterexample :
    (handlerFetch envLocalFull (InboundBody.parsed none) (TokenOutcome.resolved "tok")
        (FetchOutcome.timeout "network timeout")).outboundCalled = true ∧
    (handlerFetch envLocalFull (InboundBody.parsed none) (TokenOutcome.resolved "tok")
        (FetchOutcome.timeout "network timeout")).response.status ≠ 504 ∧
    (handlerFetch envLocalFull (InboundBody.parsed none) (TokenOutcome.resolved "tok")
        (FetchOutcome.timeout "network timeout")).response.status = 500 := by
  decide

/-- C2 (amended): whenever the outbound call is issued and does not
complete within the configured bound, the axios variant returns 504 with
the timeout-specific body `{"error": "Request to Language service timed
out"}`; the fetch variant instead surfaces the client's rejection as a
generic 500 via the top-level catch. -/
theorem c2_timeout_means_504_axios_only (env : Env) (body : InboundBody) (tok : TokenOutcome)
    (msg : String)
    (hc : (handlerAxios env body tok (FetchOutcome.timeout msg)).outboundCalled = true) :
    (handlerAxios env body tok (FetchOutcome.timeout msg)).response =
      { status := 504, body := errorBody "Request to Language service timed out"
        contentTypeJson := false } ∧
    (handlerFetch env body tok (FetchOutcome.timeout msg)).response = errorResponse500 msg := by
  cases hf : handlerFront env body tok with
  | earlyReturn resp a => simp [handlerAxios, hf] at hc
  | proceed req =>
    exact ⟨by simp [handlerAxios, hf, axiosCallResult],
           by simp [handlerFetch, hf, fetchCallResult]⟩

/-- Witness for `c2_timeout_means_504_axios_only` under the fully
configured local environment. -/
theorem c2_timeout_means_504_axios_only_witness :
    (handlerAxios envLocalFull (InboundBody.parsed none) (TokenOutcome.resolved "tok")
        (FetchOutcome.timeout "timeout of 15000ms exceeded")).response =
      { status := 504, body := errorBody "Request to Language service timed out"
        contentTypeJson := false } ∧
    (handlerFetch envLocalFull (InboundBody.parsed none) (TokenOutcome.resolved "tok")
        (FetchOutcome.timeout "timeout of 15000ms exceeded")).response =
      errorResponse500 "timeout of 15000ms exceeded" :=
  c2_timeout_means_504_axios_only envLocalFull (InboundBody.parsed none)
    (TokenOutcome.resolved "tok") "timeout of 15000ms exceeded" (by decide)

/-- Under any of the three missing-configuration situations the common
front part stops with an `errorResponse500` early return. -/
theorem front_missing_config (env : Env) (q : Option Json) (tok : TokenOutcome)
    (hmiss : (envTruthy env.websiteInstanceId = false ∧ env.languageServiceKey = none) ∨
             env.languageServiceEndpoint = none ∨ env.qaKnowledgeBaseId = none) :
    ∃ msg a, handlerFront env (InboundBody.parsed q) tok =
      FrontState.earlyReturn (errorResponse500 msg) a := by
  rcases hmiss with ⟨hloc, hkey⟩ | hend | hproj
  · exact ⟨"LANGUAGE_SERVICE_KEY environment variable is required for local development", true,
      by simp [handlerFront, parseRequest, acquireToken, hloc, hkey]⟩
  · cases hA : acquireToken (!envTruthy env.websiteInstanceId) env tok with
    | error msg => exact ⟨msg, true, by simp [handlerFront, parseRequest, hA]⟩
    | ok t => exact ⟨"LANGUAGE_SERVICE_ENDPOINT environment variable is not defined", true,
        by simp only [handlerFront, parseRequest]; rw [hA]; simp [hend, envTruthy]⟩
  · cases hA : acquireToken (!envTruthy env.websiteInstanceId) env tok with
    | error msg => exact ⟨msg, true, by simp [handlerFront, parseRequest, hA]⟩
    | ok t =>
      by_cases hE : envTruthy env.languageServiceEndpoint
      · exact ⟨"QA_KNOWLEDGE_BASE_ID environment variable is not defined", true,
          by simp only [handlerFront, parseRequest]; rw [hA]; simp only [hE, hproj]
             simp [envTruthy]⟩
      · exact ⟨"LANGUAGE_SERVICE_ENDPOINT environment variable is not defined", true,
          by simp [handlerFront, parseRequest, hA, hE]⟩

/-- C7: on any body that parses, if a required configuration value is
missing — the pre-shared key in local mode, or the endpoint base, or the
project identifier in any mode — both handlers answer 500 and the
outbound call is never issued. -/
theorem c7_missing_config_500 (env : Env) (q : Option Json) (tok : TokenOutcome)
    (fo : FetchOutcome)
    (hmiss : (envTruthy env.websiteInstanceId = false ∧ env.languageServiceKey = none) ∨
             env.languageServiceEndpoint = none ∨ env.qaKnowledgeBaseId = none) :
    (handlerAxios env (InboundBody.parsed q) tok fo).response.status = 500 ∧
    (handlerAxios env (InboundBody.parsed q) tok fo).outboundCalled = false ∧
    (handlerFetch env (InboundBody.parsed q) tok fo).response.status = 500 ∧
    (handlerFetch env (InboundBody.parsed q) tok fo).outboundCalled = false := by
  obtain ⟨msg, a, hf⟩ := front_missing_config env q tok hmiss
  exact ⟨by simp [handlerAxios, hf, errorResponse500],
         by simp [handlerAxios, hf],
         by simp [handlerFetch, hf, errorResponse500],
         by simp [handlerFetch, hf]⟩

/-- Witness for `c7_missing_config_500`: local mode with the pre-shared
key unset. -/
theorem c7_missing_config_500_witness :
    (handlerAxios envLocalNoKey (InboundBody.parsed none) (TokenOutcome.resolved "tok")
        (FetchOutcome.response 200 Json.null)).response.status = 500 ∧
    (handlerAxios envLocalNoKey (InboundBody.parsed none) (TokenOutcome.resolved "tok")
        (FetchOutcome.response 200 Json.null)).outboundCalled = false ∧
    (handlerFetch envLocalNoKey (InboundBody.parsed none) (TokenOutcome.resolved "tok")
        (FetchOutcome.response 200 Json.null)).response.status = 500 ∧
    (handlerFetch envLocalNoKey (InboundBody.parsed none) (TokenOutcome.resolved "tok")
        (FetchOutcome.response 200 Json.null)).outboundCalled = false :=
  c7_missing_config_500 envLocalNoKey none (TokenOutcome.resolved "tok")
    (FetchOutcome.response 200 Json.null) (Or.inl ⟨by decide, by decide⟩)

/-- C8: in hosted mode (platform instance identifier present, i.e.
truthy), when the managed-identity acquisition does not settle within
the 10 s bound the timer's rejection wins the race, its message is
wrapped into `Failed to authenticate: Token acquisition timed out` and
rethrown, and both handlers answer 500 carrying that message without
ever issuing the outbound call. -/
theorem c8_hosted_token_timeout (env : Env) (q : Option Json) (fo : FetchOutcome)
    (hHosted : envTruthy env.websiteInstanceId = true) :
    handlerAxios env (InboundBody.parsed q) TokenOutcome.timedOut fo =
      { response := errorResponse500 "Failed to authenticate: Token acquisition timed out"
        authAttempted := true, outboundCalled := false, outboundRequest := none } ∧
    handlerFetch env (InboundBody.parsed q) TokenOutcome.timedOut fo =
      { response := errorResponse500 "Failed to authenticate: Token acquisition timed out"
        authAttempted := true, outboundCalled := false, outboundRequest := none } := by
  have hA : acquireToken (!envTruthy env.websiteInstanceId) env TokenOutcome.timedOut =
      Except.error "Failed to authenticate: Token acquisition timed out" := by
    simp [acquireToken, hHosted]
  exact ⟨by simp [handlerAxios, handlerFront, parseRequest, hA],
         by simp [handlerFetch, handlerFront, parseRequest, hA]⟩

/-- Witness for `c8_hosted_token_timeout` under the fully configured
hosted environment. -/
theorem c8_hosted_token_timeout_witness :
    handlerAxios envHostedFull (InboundBody.parsed none) TokenOutcome.timedOut
        (FetchOutcome.response 200 Json.null) =
      { response := errorResponse500 "Failed to authenticate: Token acquisition timed out"
        authAttempted := true, outboundCalled := false, outboundRequest := none } ∧
    handlerFetch envHostedFull (InboundBody.parsed none) TokenOutcome.timedOut
        (FetchOutcome.response 200 Json.null) =
      { response := errorResponse500 "Failed to authenticate: Token acquisition timed out"
        authAttempted := true, outboundCalled := false, outboundRequest := none } :=
  c8_hosted_token_timeout envHostedFull none (FetchOutcome.response 200 Json.null) (by decide)

/-- C9 (counterexample): the inbound body consisting of the bare JSON
document `null` is valid JSON without a `question` field, yet the
default is not substituted and processing does not continue — the
`requestData.question` access throws on `null` inside the parse
try/catch and both variants answer 400 without issuing the outbound
call, even under a fully configured environment with a downstream that
would answer 200. -/
theorem c9_counterexample :
    (handlerAxios envLocalFull InboundBody.jsonNull (TokenOutcome.resolved "tok")
        (FetchOutcome.response 200 Json.null)).response.status = 400 ∧
    (handlerAxios envLocalFull InboundBody.jsonNull (TokenOutcome.resolved "tok")
        (FetchOutcome.response 200 Json.null)).outboundCalled = false ∧
    (handlerFetch envLocalFull InboundBody.jsonNull (TokenOutcome.resolved "tok")
        (FetchOutcome.response 200 Json.null)).response.status = 400 ∧
    (handlerFetch envLocalFull InboundBody.jsonNull (TokenOutcome.resolved "tok")
        (FetchOutcome.response 200 Json.null)).outboundCalled = false := by
  decide

/-- C9 (amended): for every inbound body that parses to a JSON document
other than the bare `null` and has no `question` field, both handlers
substitute the fixed default question and continue exactly as if the
caller had sent that default explicitly; any outbound query then carries
the default question. (Bare `null` is the one exception: the field
access on `null` throws and the parse catch answers 400.) -/
theorem c9_absent_question_defaults (env : Env) (tok : TokenOutcome) (fo : FetchOutcome) :
    handlerAxios env (InboundBody.parsed none) tok fo =
      handlerAxios env (InboundBody.parsed (some (Json.str defaultQuestion))) tok fo ∧
    handlerFetch env (InboundBody.parsed none) tok fo =
      handlerFetch env (InboundBody.parsed (some (Json.str defaultQuestion))) tok fo ∧
    ∀ req, (handlerAxios env (InboundBody.parsed none) tok fo).outboundRequest = some req →
      req.query.question = Json.str defaultQuestion := by
  refine ⟨rfl, rfl, ?_⟩
  intro req h
  have hf := handlerAxios_outboundRequest _ _ _ _ _ h
  have hq := front_proceed_query _ _ _ _ hf
  rw [hq]
  rfl

/-- Witness for `c9_absent_question_defaults`: under the fully
configured local environment the outbound query built for a question-less
body carries the default question. -/
theorem c9_absent_question_defaults_witness :
    reqLocalDefault.query.question = Json.str defaultQuestion :=
  (c9_absent_question_defaults envLocalFull (TokenOutcome.resolved "tok")
      (FetchOutcome.response 200 Json.null)).2.2 reqLocalDefault (by decide)

/-- C10: defaulting is driven by JS falsiness — the empty string, null,
false and 0 are all falsy, a falsy `question` value makes the invocation
behave exactly as if the field were absent (default substituted), and
any outbound query built from a provided `question` carries the provided
value when it is truthy and the default otherwise, so its question is
never the empty string. -/
theorem c10_falsy_question_defaults (env : Env) (tok : TokenOutcome) (fo : FetchOutcome)
    (v : Json) :
    ((Json.str "").truthy = false ∧ Json.null.truthy = false ∧
     (Json.bool false).truthy = false ∧ (Json.num 0).truthy = false) ∧
    (v.truthy = false →
      handlerAxios env (InboundBody.parsed (some v)) tok fo =
        handlerAxios env (InboundBody.parsed none) tok fo ∧
      handlerFetch env (InboundBody.parsed (some v)) tok fo =
        handlerFetch env (InboundBody.parsed none) tok fo) ∧
    ∀ req,
      ((handlerAxios env (InboundBody.parsed (some v)) tok fo).outboundRequest = some req ∨
       (handlerFetch env (InboundBody.parsed (some v)) tok fo).outboundRequest = some req) →
      req.query.question = (if v.truthy then v else Json.str defaultQuestion) ∧
      req.query.question ≠ Json.str "" := by
  refine ⟨by decide, ?_, ?_⟩
  · intro hv
    have hq : questionOrDefault (some v) = questionOrDefault none := by
      simp [questionOrDefault, hv]
    have hfront : handlerFront env (InboundBody.parsed (some v)) tok =
        handlerFront env (InboundBody.parsed none) tok := by
      simp only [handlerFront, parseRequest, hq]
    constructor
    · unfold handlerAxios
      rw [hfront]
    · unfold handlerFetch
      rw [hfront]
  · intro req h
    have hf : handlerFront env (InboundBody.parsed (some v)) tok = FrontState.proceed req := by
      cases h with
      | inl h => exact handlerAxios_outboundRequest _ _ _ _ _ h
      | inr h => exact handlerFetch_outboundRequest _ _ _ _ _ h
    have hq := front_proceed_query _ _ _ _ hf
    rw [hq]
    constructor
    · simp [questionOrDefault]
    · cases hvt : v.truthy with
      | true =>
        have hv' : v ≠ Json.str "" := by
          intro heq
          rw [heq] at hvt
          exact absurd hvt (by decide)
        simp [questionOrDefault, hvt]
        exact hv'
      | false =>
        simp [questionOrDefault, hvt, defaultQuestion]

/-- Witness for `c10_falsy_question_defaults` at the truthy non-string
question `7`, which is passed through to the outbound query unchanged. -/
theorem c10_falsy_question_defaults_witness :
    reqLocalNum7.query.question =
      (if (Json.num 7).truthy then Json.num 7 else Json.str defaultQuestion) ∧
    reqLocalNum7.query.question ≠ Json.str "" :=
  (c10_falsy_question_defaults envLocalFull (TokenOutcome.resolved "tok")
      (FetchOutcome.response 200 Json.null) (Json.num 7)).2.2 reqLocalNum7 (Or.inl (by decide))
